import Mathlib

/-
Verification development for the weatherapp ML forecast service.

This file gives a shallow embedding of the forecast ensemble and gridpoint
propagation engine of the repository (ml_service), together with theorems
about the embedded definitions.

Modelling conventions:
  * Python floats are modelled as rationals (ℚ): the arithmetic in the code
    (max, min, linear combinations, division) is exact real arithmetic here;
    IEEE rounding is outside the model. `np.isfinite` is always true on ℚ,
    so the finiteness guards of the code collapse to `Option.isSome` checks.
  * Dates are modelled as integers (days since an arbitrary epoch); the only
    date operations the code performs are subtraction in days and adding a
    number of days.
  * Nullable values (Python `None`, SQL NULL) are `Option`.
  * The statistical fitting routines (sklearn GaussianProcessRegressor and
    Ridge pipelines) are an opaque capability per the repository design: a
    fitted model is embedded as a structure of arbitrary functions giving the
    predicted mean and standard deviation at an input.  Everything the
    repository code does AFTER calling those predictors (bias, swap, clamp,
    confidence, grouping, weighting) is embedded faithfully.
-/

namespace Weatherapp

/-- Raw per-station history row as loaded from the database:
`(date, tmax_c, tmin_c, prcp_mm)`, each component nullable.
Mirrors the row tuples consumed by `StationSeries.from_rows`
(ml_service/ml/models/series.py). -/
structure RawRow where
  date : Option Int
  tmax_c : Option ℚ
  tmin_c : Option ℚ
  prcp_mm : Option ℚ
deriving DecidableEq

/-- Cleaned, date-sorted station series (ml/models/series.py `StationSeries`).
`tmean_c` is the derived `(tmax + tmin) / 2`. -/
structure StationSeries where
  dates : List Int
  tmin_c : List ℚ
  tmax_c : List ℚ
  prcp_mm : List ℚ
  tmean_c : List ℚ
  last_date : Int

/-- The row-cleaning filter of `StationSeries.from_rows`: drop rows whose
date, tmax or tmin is null (`r[0] is None or r[1] is None or r[2] is None`). -/
def clean_rows (rows : List RawRow) : List RawRow :=
  rows.filter (fun r => r.date.isSome && r.tmax_c.isSome && r.tmin_c.isSome)

/-- Insert a row into a date-sorted list, keeping ascending date order.
Helper for `sort_by_date`. -/
def insert_by_date (r : RawRow) : List RawRow → List RawRow
  | [] => [r]
  | x :: xs =>
    if r.date.getD 0 < x.date.getD 0 then r :: x :: xs else x :: insert_by_date r xs

/-- Ascending sort by date, embedding `cleaned.sort(key=lambda r: r[0])`.
The relative order of equal-date rows is immaterial to every claim (the
spec flags duplicate-date policy as an open question). -/
def sort_by_date (l : List RawRow) : List RawRow :=
  l.foldr insert_by_date []

/-- Embedding of `StationSeries.from_rows` (ml/models/series.py): clean,
require at least `min_rows` rows, sort ascending by date, build the aligned
arrays with null precipitation mapped to 0 and `tmean = (tmax + tmin) / 2`.
Returns `none` ("no series") when there are too few cleaned rows. -/
def from_rows (rows : List RawRow) (min_rows : Nat) : Option StationSeries :=
  let cleaned := sort_by_date (clean_rows rows)
  if cleaned.length < min_rows then none
  else
    match (cleaned.map (fun r => r.date.getD 0)).getLast? with
    | none => none
    | some last =>
      some
        { dates := cleaned.map (fun r => r.date.getD 0)
          tmin_c := cleaned.map (fun r => r.tmin_c.getD 0)
          tmax_c := cleaned.map (fun r => r.tmax_c.getD 0)
          prcp_mm := cleaned.map (fun r => r.prcp_mm.getD 0)
          tmean_c := cleaned.map (fun r => (r.tmax_c.getD 0 + r.tmin_c.getD 0) / 2)
          last_date := last }

/-- Embedding of the tail of `rolling_means` (ml/models/features.py): the
last rolling-window mean, i.e. the mean of the final `window` values (mean of
everything when the series is shorter than the window, `0` when empty). -/
def rolling_last_mean (values : List ℚ) (window : Nat) : ℚ :=
  if values.length < window then
    if values.length = 0 then 0 else values.sum / (values.length : ℚ)
  else ((values.drop (values.length - window)).sum) / (window : ℚ)

/-- Embedding of `_base_confidence` (ml/forecast.py): recency-driven base
confidence, `max(0.1, 1 - days_since_truth / 30)`, with a `+0.1` bonus
clamped to `[0.1, 1.0]` when a (finite) current temperature is present. -/
def base_confidence (last_date base_date : Int) (current_temp_c : Option ℚ) : ℚ :=
  let days_since_truth : Int := max 0 (base_date - last_date)
  let confidence : ℚ := max (1/10) (1 - (days_since_truth : ℚ) / 30)
  match current_temp_c with
  | some _ => max (1/10) (min 1 (confidence + 1/10))
  | none => confidence

/-- Bias term of `GprForecastModel.predict` (ml/models/gpr.py lines 71-73):
`(current_temp_c - last7_mean) * 0.6` when both a (finite) current
temperature and a trailing 7-day mean are present, else `0`. -/
def gpr_bias (current_temp_c last7_mean : Option ℚ) : ℚ :=
  match current_temp_c, last7_mean with
  | some c, some m => (c - m) * (3/5)
  | _, _ => 0

/-- Bias term of `RidgeForecastModel.predict` (ml/models/ridge.py lines
83-88): `(current_temp_c - last7_tmean) * 0.4` when a (finite) current
temperature is present, with a missing stored `last7_tmean` defaulting
to `0`; `0` when there is no current temperature. -/
def ridge_bias (current_temp_c last7_tmean : Option ℚ) : ℚ :=
  match current_temp_c with
  | some c => (c - last7_tmean.getD 0) * (2/5)
  | none => 0

/-- A forecast point as produced by the model `predict` methods: the dict
payload of gpr.py lines 97-111 / ridge.py lines 108-122. -/
structure ForecastPoint where
  date : Int
  as_of : Int
  horizon_hours : Int
  tmin_c : ℚ
  tmax_c : ℚ
  tmean_c : ℚ
  prcp_mm : ℚ
  delta_c : ℚ
  model_name : String
  model_detail : String
  confidence : ℚ

/-- A fitted GPR ensemble member (the opaque outcome of
`GprForecastModel.fit`): the fit-window start date and, for each of the three
targets, the predicted mean and standard deviation as a function of the
day-index input.  `prcpVal` already includes the `np.expm1` the code applies
to the log1p-space precipitation mean; `prcpStd` is the raw GP standard
deviation used for the confidence discount. -/
structure GprFitted where
  base_date_fit : Int
  tminMean : ℚ → ℚ
  tminStd : ℚ → ℚ
  tmaxMean : ℚ → ℚ
  tmaxStd : ℚ → ℚ
  prcpVal : ℚ → ℚ
  prcpStd : ℚ → ℚ

/-- One loop iteration of `GprForecastModel.predict` (ml/models/gpr.py lines
76-111) at horizon day `h`: evaluate the fitted predictors at
`base_x + h`, add the bias to tmin and tmax, swap when inverted, floor
precipitation at 0, recompute tmean and delta, and discount confidence by
`min(0.7, std_scale / 25)`.  The `np.isfinite(prcp_std)` guard of the code
is identically true on ℚ. -/
def gpr_point (M : GprFitted) (base_date : Int) (current_temp_c last7_mean : Option ℚ)
    (confidence_base : ℚ) (h : Nat) : ForecastPoint :=
  let bias := gpr_bias current_temp_c last7_mean
  let x : ℚ := ((base_date - M.base_date_fit : Int) : ℚ) + (h : ℚ)
  let tmin0 := M.tminMean x + bias
  let tmax0 := M.tmaxMean x + bias
  let tmin1 := if tmax0 < tmin0 then tmax0 else tmin0
  let tmax1 := if tmax0 < tmin0 then tmin0 else tmax0
  let std_scale := (M.tminStd x + M.tmaxStd x + M.prcpStd x) / 3
  { date := base_date + (h : Int)
    as_of := base_date
    horizon_hours := (h : Int) * 24
    tmin_c := tmin1
    tmax_c := tmax1
    tmean_c := (tmin1 + tmax1) / 2
    prcp_mm := max 0 (M.prcpVal x)
    delta_c := tmax1 - tmin1
    model_name := "gpr-v1"
    model_detail := "gpr-v1 kernel=rbf+periodic+white"
    confidence := max (1/10) (confidence_base - min (7/10) (std_scale / 25)) }

/-- Embedding of `GprForecastModel.predict`: the list of points for horizon
days `0, 1, ..., horizon_days - 1`. -/
def gpr_predict (M : GprFitted) (base_date : Int) (horizon_days : Nat)
    (current_temp_c last7_mean : Option ℚ) (confidence_base : ℚ) : List ForecastPoint :=
  (List.range horizon_days).map (gpr_point M base_date current_temp_c last7_mean confidence_base)

/-- A fitted ridge ensemble member (the opaque outcome of
`RidgeForecastModel.fit`): the trailing 7-day means captured at fit time, the
composite feature-building + pipeline prediction for each target as a
function of the target date, and the mean residual standard deviation.
`prcpAt` already includes the `np.expm1` applied by `predict`. -/
structure RidgeFitted where
  last7_tmean : Option ℚ
  last7_prcp : Option ℚ
  tminAt : Int → ℚ
  tmaxAt : Int → ℚ
  prcpAt : Int → ℚ
  resid_std : ℚ

/-- One loop iteration of `RidgeForecastModel.predict` (ml/models/ridge.py
lines 90-122) at horizon day `h`: evaluate the fitted predictors at the
target date, add the bias to tmin and tmax, swap when inverted, floor
precipitation at 0, recompute tmean and delta, and discount confidence by
`min(0.6, resid_std / 12)`. -/
def ridge_point (name detail : String) (R : RidgeFitted) (base_date : Int)
    (current_temp_c : Option ℚ) (confidence_base : ℚ) (h : Nat) : ForecastPoint :=
  let bias := ridge_bias current_temp_c R.last7_tmean
  let target_date := base_date + (h : Int)
  let tmin0 := R.tminAt target_date + bias
  let tmax0 := R.tmaxAt target_date + bias
  let tmin1 := if tmax0 < tmin0 then tmax0 else tmin0
  let tmax1 := if tmax0 < tmin0 then tmin0 else tmax0
  { date := target_date
    as_of := base_date
    horizon_hours := (h : Int) * 24
    tmin_c := tmin1
    tmax_c := tmax1
    tmean_c := (tmin1 + tmax1) / 2
    prcp_mm := max 0 (R.prcpAt target_date)
    delta_c := tmax1 - tmin1
    model_name := name
    model_detail := detail
    confidence := max (1/10) (confidence_base - min (3/5) (R.resid_std / 12)) }

/-- Embedding of `RidgeForecastModel.predict`: the list of points for horizon
days `0, 1, ..., horizon_days - 1`. -/
def ridge_predict (name detail : String) (R : RidgeFitted) (base_date : Int)
    (horizon_days : Nat) (current_temp_c : Option ℚ) (confidence_base : ℚ) :
    List ForecastPoint :=
  (List.range horizon_days).map (ridge_point name detail R base_date current_temp_c confidence_base)

/-- The ensemble assembled by `predict_station_forecast` (ml/forecast.py
lines 45-72): the GPR variant when enabled, followed by the two statically
configured ridge variants of `ridge_models()` (ml/models/ridge.py lines
126-139), with their names and detail strings. -/
def ensemble_forecast (gpr_enabled : Bool) (M : GprFitted) (R1 R2 : RidgeFitted)
    (base_date : Int) (horizon_days : Nat) (current_temp_c last7_mean : Option ℚ)
    (confidence_base : ℚ) : List ForecastPoint :=
  (if gpr_enabled then gpr_predict M base_date horizon_days current_temp_c last7_mean confidence_base
   else [])
    ++ ridge_predict "ridge-v1" "ridge-v1 features=doy_sin_cos,last7_tmean,last7_prcp,trend"
        R1 base_date horizon_days current_temp_c confidence_base
    ++ ridge_predict "ridge-seasonal-v2" "ridge-seasonal doy_sin_cos+7day_mean+trend"
        R2 base_date horizon_days current_temp_c confidence_base

/-- Embedding of `predict_station_forecast` (ml/forecast.py lines 25-72):
normalize a null row iterable to the empty list, build the series with
`min_rows = 30` (abort with `none` when it does not exist), compute the
trailing 7-day tmean mean and the base confidence, and run the ensemble.
The fits themselves are opaque; they are supplied as functions of the built
series. -/
def predict_station_forecast (station_rows : Option (List RawRow)) (gpr_enabled : Bool)
    (fitG : StationSeries → GprFitted) (fitR1 fitR2 : StationSeries → RidgeFitted)
    (base_date : Int) (horizon_days : Nat) (current_temp_c : Option ℚ) :
    Option (List ForecastPoint) :=
  let rows := station_rows.getD []
  match from_rows rows 30 with
  | none => none
  | some s =>
    let last7_mean := rolling_last_mean s.tmean_c 7
    let confidence := base_confidence s.last_date base_date current_temp_c
    some (ensemble_forecast gpr_enabled (fitG s) (fitR1 s) (fitR2 s) base_date horizon_days
      current_temp_c (some last7_mean) confidence)

/-- A forecast point as it enters the gridpoint propagation engine
(ml/bootstrap.py): a dict coming either from an in-memory
`predict_station_forecast` result or from `load_forecast_rows`
(db/predictions.py lines 155-198), where every value column may be NULL. -/
structure GridInPoint where
  as_of : Option Int
  horizon_hours : Option Int
  tmin_c : Option ℚ
  tmax_c : Option ℚ
  tmean_c : Option ℚ
  prcp_mm : Option ℚ
  delta_c : Option ℚ
  confidence : Option ℚ
  model_name : Option String
  model_detail : Option String
deriving DecidableEq

/-- The argument tuple of a `store_prediction` call (db/predictions.py
lines 17-34): the payload the engine persists for one forecast point. -/
structure StoredRecord where
  source_type : String
  source_id : Option String
  lat : ℚ
  lon : ℚ
  as_of : Option Int
  horizon_hours : Option Int
  tmin_c : Option ℚ
  tmax_c : Option ℚ
  tmean_c : Option ℚ
  prcp_mm : Option ℚ
  delta_c : Option ℚ
  confidence : Option ℚ
  model_name : Option String
  model_detail : Option String

/-- Per-neighbor aggregation weight (ml/bootstrap.py lines 107-109):
`1.0`, replaced by `1 / max(0.5, dist_km)` only when the distance is
present AND strictly positive. -/
def station_weight (dist_km : Option ℚ) : ℚ :=
  match dist_km with
  | some d => if 0 < d then 1 / max (1/2) d else 1
  | none => 1

/-- The `station_forecasts` list built in ml/bootstrap.py lines 100-110:
neighbors yielding no forecast points are dropped, the rest are paired with
their `station_weight`. -/
def mk_station_forecasts (inputs : List (List GridInPoint × Option ℚ)) :
    List (List GridInPoint × ℚ) :=
  (inputs.filter (fun s => ¬ s.1.isEmpty)).map (fun s => (s.1, station_weight s.2))

/-- Effective grouping model name, `p.get("model_name") or "model"`
(ml/bootstrap.py line 142): a missing or empty name falls back to
`"model"`. -/
def eff_model_name (p : GridInPoint) : String :=
  match p.model_name with
  | some s => if s = "" then "model" else s
  | none => "model"

/-- Effective grouping horizon, `int(p.get("horizon_hours") or 0)`
(ml/bootstrap.py line 143). -/
def eff_horizon (p : GridInPoint) : Int :=
  p.horizon_hours.getD 0

/-- The contents of the bucket `by_model[m][h]` built in ml/bootstrap.py
lines 139-144: every (point, weight) pair whose effective model name is `m`
and effective horizon is `h`, in station order. -/
def bucket_items (sfs : List (List GridInPoint × ℚ)) (m : String) (h : Int) :
    List (GridInPoint × ℚ) :=
  sfs.flatMap (fun s =>
    (s.1.filter (fun p => eff_model_name p == m && eff_horizon p == h)).map (fun p => (p, s.2)))

/-- The divisor of the merge, `sum(w for _, w in station_forecasts) or 1.0`
(ml/bootstrap.py line 138): the sum of the weights of ALL stations that
contributed any forecast point, with a falsy zero sum replaced by `1`. -/
def total_weight (sfs : List (List GridInPoint × ℚ)) : ℚ :=
  let s := (sfs.map Prod.snd).sum
  if s = 0 then 1 else s

/-- Weighted accumulation of one value field over a bucket
(ml/bootstrap.py lines 148-155): each missing value contributes `0`
(the Python `or 0.0` default). -/
def bucket_field (items : List (GridInPoint × ℚ)) (f : GridInPoint → Option ℚ) : ℚ :=
  (items.map (fun s => (f s.1).getD 0 * s.2)).sum

/-- Provenance string written on merged gridpoint records
(ml/bootstrap.py line 178). -/
def cluster_detail (stations : Nat) (data_date : Int) : String :=
  "cluster km<=5 stations=" ++ toString stations ++ " data_date=" ++ toString data_date

/-- The record stored for one `(model_name, horizon_hours)` bucket of a
multi-station gridpoint merge (ml/bootstrap.py lines 146-181): each value
field is its weighted bucket accumulation divided by `total_weight`, the
as_of date is normalized to the run's forecast date, and `model_detail` is
overwritten with the cluster provenance string. -/
def grid_bucket_point (grid_id : String) (lat lon : ℚ) (forecast_date data_date : Int)
    (sfs : List (List GridInPoint × ℚ)) (m : String) (h : Int) : StoredRecord :=
  let items := bucket_items sfs m h
  let tw := total_weight sfs
  { source_type := "gridpoint"
    source_id := some grid_id
    lat := lat
    lon := lon
    as_of := some forecast_date
    horizon_hours := some h
    tmin_c := some (bucket_field items (fun p => p.tmin_c) / tw)
    tmax_c := some (bucket_field items (fun p => p.tmax_c) / tw)
    tmean_c := some (bucket_field items (fun p => p.tmean_c) / tw)
    prcp_mm := some (bucket_field items (fun p => p.prcp_mm) / tw)
    delta_c := some (bucket_field items (fun p => p.delta_c) / tw)
    confidence := some (bucket_field items (fun p => p.confidence) / tw)
    model_name := some m
    model_detail := some (cluster_detail sfs.length data_date) }

/-- Claim-side definition, following the specification's words for §4.5
step 3: the weighted mean of a bucket value field divided by the sum of the
weights of only the pairs in that specific bucket.  Used to compare the
specified normalization with the one the code performs. -/
def spec_bucket_weighted_mean (items : List (GridInPoint × ℚ)) (f : GridInPoint → Option ℚ) : ℚ :=
  bucket_field items f / (items.map Prod.snd).sum

/-- The record stored for one point by the single-contributing-station
branch (ml/bootstrap.py lines 115-136): every value field copied from the
station's point, only the source identity fields replaced. -/
def grid_record_of_point (grid_id : String) (lat lon : ℚ) (p : GridInPoint) : StoredRecord :=
  { source_type := "gridpoint"
    source_id := some grid_id
    lat := lat
    lon := lon
    as_of := p.as_of
    horizon_hours := p.horizon_hours
    tmin_c := p.tmin_c
    tmax_c := p.tmax_c
    tmean_c := p.tmean_c
    prcp_mm := p.prcp_mm
    delta_c := p.delta_c
    confidence := p.confidence
    model_name := p.model_name
    model_detail := p.model_detail }

/-- The full output of the single-contributing-station branch: one stored
record per station point, in order. -/
def grid_single_station (grid_id : String) (lat lon : ℚ) (preds : List GridInPoint) :
    List StoredRecord :=
  preds.map (grid_record_of_point grid_id lat lon)

/-- A row of the `ml_weather_prediction` table, restricted to the columns
the existence checks consult (db/predictions.py). -/
structure PredRow where
  source_type : String
  source_id : Option String
  lat : ℚ
  lon : ℚ
  as_of_date : Int
  horizon_hours : Option Int
deriving DecidableEq

/-- The WHERE clause of `forecast_exists` / `station_forecast_exists`
(db/predictions.py lines 105-136): key match plus
`horizon_hours BETWEEN 0 AND (days - 1) * 24` (NULL horizons never match a
BETWEEN). -/
def row_in_window (r : PredRow) (source_type source_id : String) (as_of_date days : Int) : Bool :=
  r.source_type == source_type && r.source_id == some source_id
    && r.as_of_date == as_of_date
    && (match r.horizon_hours with
        | some v => decide (0 ≤ v) && decide (v ≤ (days - 1) * 24)
        | none => false)

/-- The rows counted by the existence check. -/
def matching_rows (table : List PredRow) (source_type source_id : String)
    (as_of_date days : Int) : List PredRow :=
  table.filter (fun r => row_in_window r source_type source_id as_of_date days)

/-- Embedding of `forecast_exists` (db/predictions.py lines 122-136), which
is textually identical to `station_forecast_exists` (lines 105-119): count
the rows whose horizon lies in `[0, (days - 1) * 24]` for the key and return
whether the count is at least `days`. -/
def forecast_exists (table : List PredRow) (source_type source_id : String)
    (as_of_date days : Int) : Bool :=
  decide (days ≤ ((matching_rows table source_type source_id as_of_date days).length : Int))

/-- Claim-side definition, following the specification's words for §4.6:
every integral-day horizon slot in `[0, days)` has a stored row for the
key.  Used to compare the specified contract with the count the code
performs. -/
def all_slots_present (table : List PredRow) (source_type source_id : String)
    (as_of_date days : Int) : Prop :=
  ∀ k : Int, 0 ≤ k → k < days →
    ∃ r ∈ table, r.source_type = source_type ∧ r.source_id = some source_id ∧
      r.as_of_date = as_of_date ∧ r.horizon_hours = some (24 * k)

/-- Trivial fitted GPR model used to instantiate theorems at concrete inputs. -/
def trivialGpr : GprFitted :=
  { base_date_fit := 0
    tminMean := fun _ => 0
    tminStd := fun _ => 0
    tmaxMean := fun _ => 0
    tmaxStd := fun _ => 0
    prcpVal := fun _ => 0
    prcpStd := fun _ => 0 }

/-- Trivial fitted ridge model used to instantiate theorems at concrete inputs. -/
def trivialRidge : RidgeFitted :=
  { last7_tmean := none
    last7_prcp := none
    tminAt := fun _ => 0
    tmaxAt := fun _ => 0
    prcpAt := fun _ => 0
    resid_std := 0 }

lemma insert_by_date_length (r : RawRow) (l : List RawRow) :
    (insert_by_date r l).length = l.length + 1 := by
  induction l with
  | nil => rfl
  | cons x xs ih =>
    simp only [insert_by_date]
    split <;> simp [ih]

lemma sort_by_date_length (l : List RawRow) : (sort_by_date l).length = l.length := by
  induction l with
  | nil => rfl
  | cons x xs ih =>
    show (insert_by_date x (sort_by_date xs)).length = xs.length + 1
    rw [insert_by_date_length, ih]

lemma from_rows_eq_none_of_short (rows : List RawRow) (min_rows : Nat)
    (hlt : (clean_rows rows).length < min_rows) : from_rows rows min_rows = none := by
  unfold from_rows
  rw [if_pos (by rw [sort_by_date_length]; exact hlt)]

/-- C8: a station whose raw rows clean to fewer than `min_rows = 30` rows
yields no series (`from_rows` returns none) and the forecast generator
produces no ForecastPoints (`predict_station_forecast` returns none); both
are ordinary return values, not raised errors — in the embedding both
functions are total. -/
theorem c8_insufficient_rows_no_points (rows : List RawRow) (gpr_enabled : Bool)
    (fitG : StationSeries → GprFitted) (fitR1 fitR2 : StationSeries → RidgeFitted)
    (base_date : Int) (horizon_days : Nat) (current_temp_c : Option ℚ)
    (hlt : (clean_rows rows).length < 30) :
    from_rows rows 30 = none ∧
      predict_station_forecast (some rows) gpr_enabled fitG fitR1 fitR2 base_date
        horizon_days current_temp_c = none := by
  have hnone := from_rows_eq_none_of_short rows 30 hlt
  refine ⟨hnone, ?_⟩
  unfold predict_station_forecast
  simp [hnone]

/-- Witness for C8 at the empty row list. -/
theorem c8_insufficient_rows_no_points_witness :
    (clean_rows []).length < 30 ∧
      predict_station_forecast (some []) true (fun _ => trivialGpr) (fun _ => trivialRidge)
        (fun _ => trivialRidge) 0 11 none = none :=
  ⟨by decide,
   (c8_insufficient_rows_no_points [] true (fun _ => trivialGpr) (fun _ => trivialRidge)
      (fun _ => trivialRidge) 0 11 none (by decide)).2⟩

/-- C10: `predict_station_forecast` is total on degenerate input: a null or
empty station-row iterable yields `none` (no exception is modelled; the
embedded function is total). -/
theorem c10_degenerate_input_none (gpr_enabled : Bool)
    (fitG : StationSeries → GprFitted) (fitR1 fitR2 : StationSeries → RidgeFitted)
    (base_date : Int) (horizon_days : Nat) (current_temp_c : Option ℚ) :
    predict_station_forecast none gpr_enabled fitG fitR1 fitR2 base_date horizon_days
        current_temp_c = none ∧
      predict_station_forecast (some []) gpr_enabled fitG fitR1 fitR2 base_date horizon_days
        current_temp_c = none := by
  constructor <;> rfl

lemma base_confidence_le_one (last_date base_date : Int) (cur : Option ℚ) :
    base_confidence last_date base_date cur ≤ 1 := by
  unfold base_confidence
  have hd : (0 : ℚ) ≤ ((max 0 (base_date - last_date) : Int) : ℚ) := by
    exact_mod_cast le_max_left 0 (base_date - last_date)
  match cur with
  | some _ =>
    exact max_le (by norm_num) (min_le_left _ _)
  | none =>
    refine max_le (by norm_num) ?_
    have : (0 : ℚ) ≤ ((max 0 (base_date - last_date) : Int) : ℚ) / 30 := by positivity
    linarith

lemma one_tenth_le_base_confidence (last_date base_date : Int) (cur : Option ℚ) :
    1/10 ≤ base_confidence last_date base_date cur := by
  unfold base_confidence
  match cur with
  | some _ => exact le_max_left _ _
  | none => exact le_max_left _ _

lemma clamped_confidence_bounds (cb cap s : ℚ) (hcb1 : cb ≤ 1) (hcap : 0 ≤ cap) (hs : 0 ≤ s) :
    1/10 ≤ max (1/10) (cb - min cap s) ∧ max (1/10) (cb - min cap s) ≤ 1 := by
  refine ⟨le_max_left _ _, max_le (by norm_num) ?_⟩
  have : 0 ≤ min cap s := le_min hcap hs
  linarith

/-- C3: every ForecastPoint produced by the GPR variant or by either ridge
variant — for any fitted models with nonnegative predictive standard
deviations, any series recency, base date, current temperature and horizon —
satisfies `tmin_c ≤ tmax_c` after bias application (the swap), and its
confidence lies in `[0.1, 1.0]` when the confidence base is the pipeline's
`base_confidence`. -/
theorem c3_point_invariants (M : GprFitted) (R : RidgeFitted) (name detail : String)
    (last_date base_date : Int) (cur last7 : Option ℚ) (h : Nat)
    (hstd : ∀ x : ℚ, 0 ≤ M.tminStd x ∧ 0 ≤ M.tmaxStd x ∧ 0 ≤ M.prcpStd x)
    (hres : 0 ≤ R.resid_std) :
    ((gpr_point M base_date cur last7 (base_confidence last_date base_date cur) h).tmin_c ≤
        (gpr_point M base_date cur last7 (base_confidence last_date base_date cur) h).tmax_c ∧
      1/10 ≤ (gpr_point M base_date cur last7 (base_confidence last_date base_date cur) h).confidence ∧
      (gpr_point M base_date cur last7 (base_confidence last_date base_date cur) h).confidence ≤ 1) ∧
    ((ridge_point name detail R base_date cur (base_confidence last_date base_date cur) h).tmin_c ≤
        (ridge_point name detail R base_date cur (base_confidence last_date base_date cur) h).tmax_c ∧
      1/10 ≤ (ridge_point name detail R base_date cur (base_confidence last_date base_date cur) h).confidence ∧
      (ridge_point name detail R base_date cur (base_confidence last_date base_date cur) h).confidence ≤ 1) := by
  have hcb1 := base_confidence_le_one last_date base_date cur
  constructor
  · unfold gpr_point
    set x : ℚ := ((base_date - M.base_date_fit : Int) : ℚ) + (h : ℚ) with hx
    have hs : 0 ≤ (M.tminStd x + M.tmaxStd x + M.prcpStd x) / 3 / 25 := by
      have h1 := (hstd x).1
      have h2 := (hstd x).2.1
      have h3 := (hstd x).2.2
      positivity
    have hb := clamped_confidence_bounds (base_confidence last_date base_date cur)
      (7/10) ((M.tminStd x + M.tmaxStd x + M.prcpStd x) / 3 / 25) hcb1 (by norm_num) hs
    refine ⟨?_, hb.1, hb.2⟩
    dsimp only
    split
    · next hlt => linarith
    · next hlt => linarith [le_of_not_lt hlt]
  · unfold ridge_point
    have hs : 0 ≤ R.resid_std / 12 := by positivity
    have hb := clamped_confidence_bounds (base_confidence last_date base_date cur)
      (3/5) (R.resid_std / 12) hcb1 (by norm_num) hs
    refine ⟨?_, hb.1, hb.2⟩
    dsimp only
    split
    · next hlt => linarith
    · next hlt => linarith [le_of_not_lt hlt]

/-- Witness for C3 at trivial fitted models. -/
theorem c3_point_invariants_witness :
    (∀ x : ℚ, 0 ≤ trivialGpr.tminStd x ∧ 0 ≤ trivialGpr.tmaxStd x ∧ 0 ≤ trivialGpr.prcpStd x) ∧
      0 ≤ trivialRidge.resid_std ∧
      (gpr_point trivialGpr 0 none none (base_confidence 0 0 none) 0).tmin_c ≤
        (gpr_point trivialGpr 0 none none (base_confidence 0 0 none) 0).tmax_c :=
  ⟨fun _ => ⟨le_refl 0, le_refl 0, le_refl 0⟩, le_refl 0,
   ((c3_point_invariants trivialGpr trivialRidge "ridge-v1" "d" 0 0 none none 0
      (fun _ => ⟨le_refl 0, le_refl 0, le_refl 0⟩) (le_refl 0)).1).1⟩

/-- C4: with a (finite) current temperature `c` and trailing 7-day mean `m`
available, the primary (GPR) model's bias is `(c - m) * 0.6` and the ridge
models' bias is `(current - last7) * 0.4`; the bias is added to both raw
`tmin_c` and `tmax_c` predictions (the produced pair is exactly the biased
raw pair, up to the order-restoring swap) before `tmean_c` and `delta_c`
are recomputed; in particular, with `c = 15` and `m = 10` the primary
model's bias is `3`. -/
theorem c4_bias_formula (M : GprFitted) (R : RidgeFitted) (name detail : String)
    (base_date : Int) (c m cb : ℚ) (h : Nat) :
    gpr_bias (some c) (some m) = (c - m) * (3/5) ∧
    ridge_bias (some c) (some m) = (c - m) * (2/5) ∧
    gpr_bias (some 15) (some 10) = 3 ∧
    (({(gpr_point M base_date (some c) (some m) cb h).tmin_c,
        (gpr_point M base_date (some c) (some m) cb h).tmax_c} : Multiset ℚ) =
      {M.tminMean (((base_date - M.base_date_fit : Int) : ℚ) + (h : ℚ)) + gpr_bias (some c) (some m),
       M.tmaxMean (((base_date - M.base_date_fit : Int) : ℚ) + (h : ℚ)) + gpr_bias (some c) (some m)}) ∧
    (gpr_point M base_date (some c) (some m) cb h).tmean_c =
      (M.tminMean (((base_date - M.base_date_fit : Int) : ℚ) + (h : ℚ)) +
        M.tmaxMean (((base_date - M.base_date_fit : Int) : ℚ) + (h : ℚ))) / 2 +
        gpr_bias (some c) (some m) ∧
    (gpr_point M base_date (some c) (some m) cb h).delta_c =
      |M.tmaxMean (((base_date - M.base_date_fit : Int) : ℚ) + (h : ℚ)) -
        M.tminMean (((base_date - M.base_date_fit : Int) : ℚ) + (h : ℚ))| ∧
    (({(ridge_point name detail R base_date (some c) cb h).tmin_c,
        (ridge_point name detail R base_date (some c) cb h).tmax_c} : Multiset ℚ) =
      {R.tminAt (base_date + (h : Int)) + ridge_bias (some c) R.last7_tmean,
       R.tmaxAt (base_date + (h : Int)) + ridge_bias (some c) R.last7_tmean}) ∧
    (ridge_point name detail R base_date (some c) cb h).tmean_c =
      (R.tminAt (base_date + (h : Int)) + R.tmaxAt (base_date + (h : Int))) / 2 +
        ridge_bias (some c) R.last7_tmean ∧
    (ridge_point name detail R base_date (some c) cb h).delta_c =
      |R.tmaxAt (base_date + (h : Int)) - R.tminAt (base_date + (h : Int))| := by
  refine ⟨rfl, ?_, by norm_num [gpr_bias], ?_, ?_, ?_, ?_, ?_, ?_⟩
  · simp [ridge_bias]
  · unfold gpr_point
    dsimp only
    split
    · exact Multiset.pair_comm _ _
    · rfl
  · unfold gpr_point
    dsimp only
    split <;> ring
  · unfold gpr_point
    dsimp only
    split
    · next hlt =>
      rw [abs_of_neg (by linarith)]
      ring
    · next hlt =>
      rw [abs_of_nonneg (by linarith [le_of_not_lt hlt])]
      ring
  · unfold ridge_point
    dsimp only
    split
    · exact Multiset.pair_comm _ _
    · rfl
  · unfold ridge_point
    dsimp only
    split <;> ring
  · unfold ridge_point
    dsimp only
    split
    · next hlt =>
      rw [abs_of_neg (by linarith)]
      ring
    · next hlt =>
      rw [abs_of_nonneg (by linarith [le_of_not_lt hlt])]
      ring

lemma gpr_predict_length (M : GprFitted) (bd : Int) (n : Nat) (cur l7 : Option ℚ) (cb : ℚ) :
    (gpr_predict M bd n cur l7 cb).length = n := by
  simp [gpr_predict]

lemma ridge_predict_length (name detail : String) (R : RidgeFitted) (bd : Int) (n : Nat)
    (cur : Option ℚ) (cb : ℚ) : (ridge_predict name detail R bd n cur cb).length = n := by
  simp [ridge_predict]

lemma gpr_predict_horizons (M : GprFitted) (bd : Int) (n : Nat) (cur l7 : Option ℚ) (cb : ℚ) :
    (gpr_predict M bd n cur l7 cb).map (fun p => p.horizon_hours) =
      (List.range n).map (fun h : Nat => (h : Int) * 24) := by
  simp only [gpr_predict, List.map_map]
  rfl

lemma ridge_predict_horizons (name detail : String) (R : RidgeFitted) (bd : Int) (n : Nat)
    (cur : Option ℚ) (cb : ℚ) :
    (ridge_predict name detail R bd n cur cb).map (fun p => p.horizon_hours) =
      (List.range n).map (fun h : Nat => (h : Int) * 24) := by
  simp only [ridge_predict, List.map_map]
  rfl

lemma gpr_predict_names (M : GprFitted) (bd : Int) (n : Nat) (cur l7 : Option ℚ) (cb : ℚ) :
    ∀ p ∈ gpr_predict M bd n cur l7 cb, p.model_name = "gpr-v1" := by
  intro p hp
  simp only [gpr_predict, List.mem_map] at hp
  obtain ⟨h, -, rfl⟩ := hp
  rfl

lemma ridge_predict_names (name detail : String) (R : RidgeFitted) (bd : Int) (n : Nat)
    (cur : Option ℚ) (cb : ℚ) :
    ∀ p ∈ ridge_predict name detail R bd n cur cb, p.model_name = name := by
  intro p hp
  simp only [ridge_predict, List.mem_map] at hp
  obtain ⟨h, -, rfl⟩ := hp
  rfl

lemma filter_name_all (l : List ForecastPoint) (nm : String)
    (hname : ∀ p ∈ l, p.model_name = nm) :
    l.filter (fun p => p.model_name == nm) = l := by
  rw [List.filter_eq_self]
  intro a ha
  rw [hname a ha]
  simp

lemma filter_name_none (l : List ForecastPoint) (nm nm' : String)
    (hname : ∀ p ∈ l, p.model_name = nm) (hne : nm ≠ nm') :
    l.filter (fun p => p.model_name == nm') = [] := by
  rw [List.filter_eq_nil_iff]
  intro a ha
  rw [hname a ha]
  simp [hne]

lemma range_horizons_nodup (n : Nat) :
    ((List.range n).map (fun h : Nat => (h : Int) * 24)).Nodup := by
  refine List.Nodup.map ?_ (List.nodup_range n)
  intro a b hab
  have hab' : (a : Int) * 24 = (b : Int) * 24 := hab
  omega

lemma pairs_nodup_of_horizons (l : List ForecastPoint)
    (hn : (l.map (fun p => p.horizon_hours)).Nodup) :
    (l.map (fun p => (p.model_name, p.horizon_hours))).Nodup := by
  have h2 : ((l.map (fun p => (p.model_name, p.horizon_hours))).map Prod.snd).Nodup := by
    rw [List.map_map]
    exact hn
  exact h2.of_map

/-- C5: a station run with the configured ensemble over `horizon_days` days
yields exactly `N × horizon_days` ForecastPoints, where `N` counts the
enabled variants (GPR when enabled, plus the two ridge variants); each
variant's subset carries the horizons `0, 24, ..., (horizon_days - 1) * 24`
exactly once, so its `(model_name, horizon_hours)` pairs are pairwise
distinct. -/
theorem c5_ensemble_shape (g : Bool) (M : GprFitted) (R1 R2 : RidgeFitted)
    (bd : Int) (n : Nat) (cur l7 : Option ℚ) (cb : ℚ) :
    (ensemble_forecast g M R1 R2 bd n cur l7 cb).length = ((if g then 1 else 0) + 2) * n ∧
    ((ensemble_forecast g M R1 R2 bd n cur l7 cb).filter
        (fun p => p.model_name == "gpr-v1")).map (fun p => p.horizon_hours) =
      (if g then (List.range n).map (fun h : Nat => (h : Int) * 24) else []) ∧
    ((ensemble_forecast g M R1 R2 bd n cur l7 cb).filter
        (fun p => p.model_name == "ridge-v1")).map (fun p => p.horizon_hours) =
      (List.range n).map (fun h : Nat => (h : Int) * 24) ∧
    ((ensemble_forecast g M R1 R2 bd n cur l7 cb).filter
        (fun p => p.model_name == "ridge-seasonal-v2")).map (fun p => p.horizon_hours) =
      (List.range n).map (fun h : Nat => (h : Int) * 24) ∧
    (((ensemble_forecast g M R1 R2 bd n cur l7 cb).filter
        (fun p => p.model_name == "gpr-v1")).map
          (fun p => (p.model_name, p.horizon_hours))).Nodup ∧
    (((ensemble_forecast g M R1 R2 bd n cur l7 cb).filter
        (fun p => p.model_name == "ridge-v1")).map
          (fun p => (p.model_name, p.horizon_hours))).Nodup ∧
    (((ensemble_forecast g M R1 R2 bd n cur l7 cb).filter
        (fun p => p.model_name == "ridge-seasonal-v2")).map
          (fun p => (p.model_name, p.horizon_hours))).Nodup := by
  have hnames1 := gpr_predict_names M bd n cur l7 cb
  have hnames2 := ridge_predict_names "ridge-v1"
    "ridge-v1 features=doy_sin_cos,last7_tmean,last7_prcp,trend" R1 bd n cur cb
  have hnames3 := ridge_predict_names "ridge-seasonal-v2"
    "ridge-seasonal doy_sin_cos+7day_mean+trend" R2 bd n cur cb
  have hfilt : ∀ nm : String,
      (ensemble_forecast g M R1 R2 bd n cur l7 cb).filter (fun p => p.model_name == nm) =
        ((if g then gpr_predict M bd n cur l7 cb else []).filter (fun p => p.model_name == nm))
          ++ ((ridge_predict "ridge-v1"
                "ridge-v1 features=doy_sin_cos,last7_tmean,last7_prcp,trend" R1 bd n cur cb).filter
                (fun p => p.model_name == nm))
          ++ ((ridge_predict "ridge-seasonal-v2"
                "ridge-seasonal doy_sin_cos+7day_mean+trend" R2 bd n cur cb).filter
                (fun p => p.model_name == nm)) := by
    intro nm
    simp [ensemble_forecast, List.filter_append]
  have hgpr : ∀ nm : String, "gpr-v1" ≠ nm →
      (if g then gpr_predict M bd n cur l7 cb else []).filter (fun p => p.model_name == nm) = [] := by
    intro nm hne
    cases g
    · rfl
    · exact filter_name_none _ _ _ hnames1 hne
  have hgpr_self :
      (if g then gpr_predict M bd n cur l7 cb else []).filter (fun p => p.model_name == "gpr-v1") =
        (if g then gpr_predict M bd n cur l7 cb else []) := by
    cases g
    · rfl
    · exact filter_name_all _ _ hnames1
  have e1 : ((ensemble_forecast g M R1 R2 bd n cur l7 cb).filter
      (fun p => p.model_name == "gpr-v1")).map (fun p => p.horizon_hours) =
      (if g then (List.range n).map (fun h : Nat => (h : Int) * 24) else []) := by
    rw [hfilt, hgpr_self, filter_name_none _ _ _ hnames2 (by decide),
      filter_name_none _ _ _ hnames3 (by decide)]
    cases g
    · simp
    · simp [gpr_predict_horizons]
  have e2 : ((ensemble_forecast g M R1 R2 bd n cur l7 cb).filter
      (fun p => p.model_name == "ridge-v1")).map (fun p => p.horizon_hours) =
      (List.range n).map (fun h : Nat => (h : Int) * 24) := by
    rw [hfilt, hgpr _ (by decide), filter_name_all _ _ hnames2,
      filter_name_none _ _ _ hnames3 (by decide)]
    simp [ridge_predict_horizons]
  have e3 : ((ensemble_forecast g M R1 R2 bd n cur l7 cb).filter
      (fun p => p.model_name == "ridge-seasonal-v2")).map (fun p => p.horizon_hours) =
      (List.range n).map (fun h : Nat => (h : Int) * 24) := by
    rw [hfilt, hgpr _ (by decide), filter_name_none _ _ _ hnames2 (by decide),
      filter_name_all _ _ hnames3]
    simp [ridge_predict_horizons]
  refine ⟨?_, e1, e2, e3,
    pairs_nodup_of_horizons _ (by rw [e1]; cases g <;> simp [range_horizons_nodup]),
    pairs_nodup_of_horizons _ (by rw [e2]; exact range_horizons_nodup n),
    pairs_nodup_of_horizons _ (by rw [e3]; exact range_horizons_nodup n)⟩
  cases g
  · simp [ensemble_forecast, ridge_predict_length]
    ring
  · simp [ensemble_forecast, ridge_predict_length, gpr_predict_length]
    ring

/-- Sample forecast point used to instantiate the gridpoint theorems. -/
def samplePoint : GridInPoint :=
  { as_of := some 100
    horizon_hours := some 24
    tmin_c := some 4
    tmax_c := some 9
    tmean_c := some (13/2)
    prcp_mm := some 1
    delta_c := some 5
    confidence := some (4/5)
    model_name := some "gpr-v1"
    model_detail := some "gpr-v1 kernel=rbf+periodic+white" }

/-- C6: a gridpoint whose contributing-station list reduces to one station
reproduces every value field of each of that station's forecast points
unchanged — as_of, horizon_hours, tmin_c, tmax_c, tmean_c, prcp_mm,
delta_c, model_name, model_detail, confidence (the target date is derived
from as_of and horizon_hours downstream, so it is preserved too) — and
modifies only the source identity: source_type becomes "gridpoint",
source_id the grid id, lat/lon the gridpoint's coordinates. -/
theorem c6_single_station_passthrough (grid_id : String) (lat lon : ℚ)
    (preds : List GridInPoint) :
    (grid_single_station grid_id lat lon preds).length = preds.length ∧
    (∀ p ∈ preds, ∃ r ∈ grid_single_station grid_id lat lon preds,
        r.source_type = "gridpoint" ∧ r.source_id = some grid_id ∧
        r.lat = lat ∧ r.lon = lon ∧
        r.as_of = p.as_of ∧ r.horizon_hours = p.horizon_hours ∧
        r.tmin_c = p.tmin_c ∧ r.tmax_c = p.tmax_c ∧ r.tmean_c = p.tmean_c ∧
        r.prcp_mm = p.prcp_mm ∧ r.delta_c = p.delta_c ∧
        r.model_name = p.model_name ∧ r.model_detail = p.model_detail ∧
        r.confidence = p.confidence) ∧
    (∀ r ∈ grid_single_station grid_id lat lon preds, ∃ p ∈ preds,
        r.source_type = "gridpoint" ∧ r.source_id = some grid_id ∧
        r.lat = lat ∧ r.lon = lon ∧
        r.as_of = p.as_of ∧ r.horizon_hours = p.horizon_hours ∧
        r.tmin_c = p.tmin_c ∧ r.tmax_c = p.tmax_c ∧ r.tmean_c = p.tmean_c ∧
        r.prcp_mm = p.prcp_mm ∧ r.delta_c = p.delta_c ∧
        r.model_name = p.model_name ∧ r.model_detail = p.model_detail ∧
        r.confidence = p.confidence) := by
  refine ⟨by simp [grid_single_station], ?_, ?_⟩
  · intro p hp
    exact ⟨grid_record_of_point grid_id lat lon p, List.mem_map_of_mem _ hp,
      rfl, rfl, rfl, rfl, rfl, rfl, rfl, rfl, rfl, rfl, rfl, rfl, rfl, rfl⟩
  · intro r hr
    obtain ⟨p, hp, rfl⟩ := List.mem_map.mp hr
    exact ⟨p, hp, rfl, rfl, rfl, rfl, rfl, rfl, rfl, rfl, rfl, rfl, rfl, rfl, rfl, rfl⟩

/-- Witness for C6 at a concrete one-point forecast set. -/
theorem c6_single_station_passthrough_witness :
    ∃ r ∈ grid_single_station "G7" (47/10) (-122) [samplePoint],
      r.source_type = "gridpoint" ∧ r.source_id = some "G7" ∧
      r.lat = 47/10 ∧ r.lon = -122 ∧
      r.as_of = samplePoint.as_of ∧ r.horizon_hours = samplePoint.horizon_hours ∧
      r.tmin_c = samplePoint.tmin_c ∧ r.tmax_c = samplePoint.tmax_c ∧
      r.tmean_c = samplePoint.tmean_c ∧ r.prcp_mm = samplePoint.prcp_mm ∧
      r.delta_c = samplePoint.delta_c ∧ r.model_name = samplePoint.model_name ∧
      r.model_detail = samplePoint.model_detail ∧ r.confidence = samplePoint.confidence :=
  (c6_single_station_passthrough "G7" (47/10) (-122) [samplePoint]).2.1 samplePoint
    (List.mem_singleton_self samplePoint)

lemma station_weight_pos (d : Option ℚ) : 0 < station_weight d := by
  unfold station_weight
  match d with
  | none => norm_num
  | some v =>
    split
    · next hv =>
      have : (0 : ℚ) < max (1/2) v := lt_max_of_lt_left (by norm_num)
      positivity
    · norm_num

lemma mk_station_forecasts_weight_pos (inputs : List (List GridInPoint × Option ℚ)) :
    ∀ s ∈ mk_station_forecasts inputs, 0 < s.2 := by
  intro s hs
  unfold mk_station_forecasts at hs
  obtain ⟨t, -, rfl⟩ := List.mem_map.mp hs
  exact station_weight_pos t.2

lemma total_weight_pos (inputs : List (List GridInPoint × Option ℚ)) :
    0 < total_weight (mk_station_forecasts inputs) := by
  unfold total_weight
  dsimp only
  split
  · norm_num
  · next hne =>
    have hnn : (0 : ℚ) ≤ ((mk_station_forecasts inputs).map Prod.snd).sum := by
      refine List.sum_nonneg ?_
      intro x hx
      obtain ⟨s, hs, rfl⟩ := List.mem_map.mp hx
      exact le_of_lt (mk_station_forecasts_weight_pos inputs s hs)
    exact lt_of_le_of_ne hnn (Ne.symm hne)

lemma bucket_items_weight_mem (sfs : List (List GridInPoint × ℚ)) (m : String) (h : Int) :
    ∀ q ∈ bucket_items sfs m h, ∃ s ∈ sfs, q.2 = s.2 := by
  intro q hq
  unfold bucket_items at hq
  rw [List.mem_flatMap] at hq
  obtain ⟨s, hs, hq2⟩ := hq
  obtain ⟨p, -, rfl⟩ := List.mem_map.mp hq2
  exact ⟨s, hs, rfl⟩

/-- C9: in the multi-station gridpoint merge, if every point contributing to
a `(model_name, horizon_hours)` bucket has its (null-defaulted) `tmin_c` at
most its `tmax_c`, then the merged record for that bucket satisfies
`tmin_c ≤ tmax_c` as well: both fields are accumulated with the same
positive per-station weights and divided by the same positive total
weight. -/
theorem c9_merge_preserves_tmin_le_tmax (inputs : List (List GridInPoint × Option ℚ))
    (grid_id : String) (lat lon : ℚ) (forecast_date data_date h : Int) (m : String)
    (hord : ∀ q ∈ bucket_items (mk_station_forecasts inputs) m h,
        q.1.tmin_c.getD 0 ≤ q.1.tmax_c.getD 0) :
    (grid_bucket_point grid_id lat lon forecast_date data_date
        (mk_station_forecasts inputs) m h).tmin_c.getD 0 ≤
      (grid_bucket_point grid_id lat lon forecast_date data_date
        (mk_station_forecasts inputs) m h).tmax_c.getD 0 := by
  unfold grid_bucket_point
  dsimp only [Option.getD_some]
  rw [div_le_div_iff_of_pos_right (total_weight_pos inputs)]
  unfold bucket_field
  refine List.sum_le_sum ?_
  intro q hq
  have hw : 0 < q.2 := by
    obtain ⟨s, hs, hqe⟩ := bucket_items_weight_mem _ m h q hq
    rw [hqe]
    exact mk_station_forecasts_weight_pos inputs s hs
  exact mul_le_mul_of_nonneg_right (hord q hq) (le_of_lt hw)

/-- Station A forecast point for the weighted-merge examples:
`tmean_c = 10` in bucket `("m1", 0)`. -/
def cexA : GridInPoint :=
  { as_of := some 200
    horizon_hours := some 0
    tmin_c := some 8
    tmax_c := some 12
    tmean_c := some 10
    prcp_mm := some 0
    delta_c := some 4
    confidence := some 1
    model_name := some "m1"
    model_detail := some "da" }

/-- Station B forecast point for the weighted-merge examples:
`tmean_c = 20` in bucket `("m1", 0)`. -/
def cexB : GridInPoint :=
  { cexA with tmin_c := some 18, tmax_c := some 22, tmean_c := some 20, model_detail := some "db" }

/-- Station B forecast point landing in a different bucket `("m2", 0)`:
used to exhibit partial bucket coverage. -/
def cexB2 : GridInPoint :=
  { cexB with model_name := some "m2" }

/-- Two equidistant contributing stations with disjoint model buckets:
station A only populates `("m1", 0)`, station B only `("m2", 0)`. -/
def c1Inputs : List (List GridInPoint × Option ℚ) :=
  [([cexA], some 1), ([cexB2], some 1)]

/-- Two contributing stations at 1 km and 4 km whose points share the
bucket `("m1", 0)`. -/
def c7Inputs : List (List GridInPoint × Option ℚ) :=
  [([cexA], some 1), ([cexB], some 4)]

/-- Low-temperature point for the order-preservation example. -/
def c9Lo : GridInPoint :=
  { cexA with tmin_c := some 5, tmax_c := some 8 }

/-- High-temperature point for the order-preservation example. -/
def c9Hi : GridInPoint :=
  { cexA with tmin_c := some 10, tmax_c := some 14 }

/-- Two contributing stations for the order-preservation example. -/
def c9Inputs : List (List GridInPoint × Option ℚ) :=
  [([c9Lo], some 1), ([c9Hi], some 4)]

lemma station_weight_known_pos (d : ℚ) (hd : 0 < d) :
    station_weight (some d) = 1 / max (1/2) d := by
  show (if 0 < d then 1 / max (1/2) d else 1) = 1 / max (1/2) d
  rw [if_pos hd]

lemma station_weight_some_one : station_weight (some (1 : ℚ)) = 1 := by
  rw [station_weight_known_pos 1 (by norm_num),
    max_eq_right (by norm_num : (1 : ℚ)/2 ≤ 1)]
  norm_num

lemma station_weight_some_four : station_weight (some (4 : ℚ)) = 1/4 := by
  rw [station_weight_known_pos 4 (by norm_num),
    max_eq_right (by norm_num : (1 : ℚ)/2 ≤ 4)]

lemma msf_c1 : mk_station_forecasts c1Inputs = [([cexA], 1), ([cexB2], 1)] := by
  unfold mk_station_forecasts c1Inputs
  simp [station_weight_some_one]

lemma msf_c7 : mk_station_forecasts c7Inputs = [([cexA], 1), ([cexB], 1/4)] := by
  unfold mk_station_forecasts c7Inputs
  simp [station_weight_some_one, station_weight_some_four]

lemma msf_c9 : mk_station_forecasts c9Inputs = [([c9Lo], 1), ([c9Hi], 1/4)] := by
  unfold mk_station_forecasts c9Inputs
  simp [station_weight_some_one, station_weight_some_four]

lemma bucket_c1 : bucket_items [([cexA], (1 : ℚ)), ([cexB2], 1)] "m1" 0 = [(cexA, 1)] := rfl

lemma bucket_c7 :
    bucket_items [([cexA], (1 : ℚ)), ([cexB], 1/4)] "m1" 0 = [(cexA, 1), (cexB, 1/4)] := rfl

lemma bucket_c9 :
    bucket_items [([c9Lo], (1 : ℚ)), ([c9Hi], 1/4)] "m1" 0 = [(c9Lo, 1), (c9Hi, 1/4)] := rfl

/-- Witness for C9 at a concrete two-station merge. -/
theorem c9_merge_preserves_tmin_le_tmax_witness :
    (∀ q ∈ bucket_items (mk_station_forecasts c9Inputs) "m1" 0,
        q.1.tmin_c.getD 0 ≤ q.1.tmax_c.getD 0) ∧
    (grid_bucket_point "G2" 0 0 200 199 (mk_station_forecasts c9Inputs) "m1" 0).tmin_c.getD 0 ≤
      (grid_bucket_point "G2" 0 0 200 199 (mk_station_forecasts c9Inputs) "m1" 0).tmax_c.getD 0 := by
  have hord : ∀ q ∈ bucket_items (mk_station_forecasts c9Inputs) "m1" 0,
      q.1.tmin_c.getD 0 ≤ q.1.tmax_c.getD 0 := by
    intro q hq
    rw [msf_c9, bucket_c9] at hq
    simp only [List.mem_cons, List.not_mem_nil, or_false] at hq
    rcases hq with rfl | rfl <;> norm_num [c9Lo, c9Hi, cexA]
  exact ⟨hord, c9_merge_preserves_tmin_le_tmax c9Inputs "G2" 0 0 200 199 0 "m1" hord⟩

/-- Counterexample to C1: with two contributing stations of weight 1 whose
points fall in disjoint buckets, the bucket `("m1", 0)` holds one point of
value 10 and bucket weight 1, yet the code's merged mean is `10 / 2 = 5`
because it divides by the total weight (2) of all contributing stations,
not the per-bucket weight sum (1), under which the mean would be 10 as the
claim specifies. -/
theorem c1_counterexample :
    (grid_bucket_point "G1" 0 0 200 199 (mk_station_forecasts c1Inputs) "m1" 0).tmean_c =
      some 5 ∧
    spec_bucket_weighted_mean (bucket_items (mk_station_forecasts c1Inputs) "m1" 0)
      (fun p => p.tmean_c) = 10 ∧
    (5 : ℚ) ≠ 10 := by
  refine ⟨?_, ?_, by norm_num⟩
  · unfold grid_bucket_point
    dsimp only
    rw [msf_c1, bucket_c1]
    unfold bucket_field total_weight
    norm_num [cexA]
  · unfold spec_bucket_weighted_mean bucket_field
    rw [msf_c1, bucket_c1]
    norm_num [cexA]

lemma bucket_items_cons (s : List GridInPoint × ℚ) (rest : List (List GridInPoint × ℚ))
    (m : String) (h : Int) :
    bucket_items (s :: rest) m h =
      (s.1.filter (fun p => eff_model_name p == m && eff_horizon p == h)).map (fun p => (p, s.2))
        ++ bucket_items rest m h := rfl

lemma bucket_weight_sum_eq (sfs : List (List GridInPoint × ℚ)) (m : String) (h : Int)
    (hone : ∀ s ∈ sfs,
      (s.1.filter (fun p => eff_model_name p == m && eff_horizon p == h)).length = 1) :
    ((bucket_items sfs m h).map Prod.snd).sum = (sfs.map Prod.snd).sum := by
  induction sfs with
  | nil => rfl
  | cons s rest ih =>
    rw [bucket_items_cons, List.map_append, List.sum_append]
    obtain ⟨a, ha⟩ := List.length_eq_one.mp (hone s (List.mem_cons_self s rest))
    rw [ha, ih (fun t ht => hone t (List.mem_cons_of_mem s ht))]
    simp

lemma merged_eq_spec_mean (sfs : List (List GridInPoint × ℚ)) (m : String) (h : Int)
    (hone : ∀ s ∈ sfs,
      (s.1.filter (fun p => eff_model_name p == m && eff_horizon p == h)).length = 1)
    (hsum : (sfs.map Prod.snd).sum ≠ 0) (f : GridInPoint → Option ℚ) :
    bucket_field (bucket_items sfs m h) f / total_weight sfs =
      spec_bucket_weighted_mean (bucket_items sfs m h) f := by
  unfold spec_bucket_weighted_mean total_weight
  rw [bucket_weight_sum_eq sfs m h hone]
  dsimp only
  rw [if_neg hsum]

/-- Amended C1: the merge divides every bucket accumulation by the sum of
the weights over ALL stations that contributed any forecast point to the
gridpoint (with a zero sum replaced by 1), not by the per-bucket weight
sum; the two normalizations agree exactly when every contributing station
contributes exactly one point to the bucket in question and the total
weight is nonzero, in which case each merged field is the per-bucket
weighted mean of the claim. -/
theorem c1_amended_bucket_means (grid_id : String) (lat lon : ℚ)
    (forecast_date data_date : Int) (sfs : List (List GridInPoint × ℚ)) (m : String) (h : Int)
    (hone : ∀ s ∈ sfs,
      (s.1.filter (fun p => eff_model_name p == m && eff_horizon p == h)).length = 1)
    (hsum : (sfs.map Prod.snd).sum ≠ 0) :
    (grid_bucket_point grid_id lat lon forecast_date data_date sfs m h).tmin_c =
      some (spec_bucket_weighted_mean (bucket_items sfs m h) (fun p => p.tmin_c)) ∧
    (grid_bucket_point grid_id lat lon forecast_date data_date sfs m h).tmax_c =
      some (spec_bucket_weighted_mean (bucket_items sfs m h) (fun p => p.tmax_c)) ∧
    (grid_bucket_point grid_id lat lon forecast_date data_date sfs m h).tmean_c =
      some (spec_bucket_weighted_mean (bucket_items sfs m h) (fun p => p.tmean_c)) ∧
    (grid_bucket_point grid_id lat lon forecast_date data_date sfs m h).prcp_mm =
      some (spec_bucket_weighted_mean (bucket_items sfs m h) (fun p => p.prcp_mm)) ∧
    (grid_bucket_point grid_id lat lon forecast_date data_date sfs m h).delta_c =
      some (spec_bucket_weighted_mean (bucket_items sfs m h) (fun p => p.delta_c)) ∧
    (grid_bucket_point grid_id lat lon forecast_date data_date sfs m h).confidence =
      some (spec_bucket_weighted_mean (bucket_items sfs m h) (fun p => p.confidence)) := by
  unfold grid_bucket_point
  dsimp only
  exact ⟨congrArg some (merged_eq_spec_mean sfs m h hone hsum _),
    congrArg some (merged_eq_spec_mean sfs m h hone hsum _),
    congrArg some (merged_eq_spec_mean sfs m h hone hsum _),
    congrArg some (merged_eq_spec_mean sfs m h hone hsum _),
    congrArg some (merged_eq_spec_mean sfs m h hone hsum _),
    congrArg some (merged_eq_spec_mean sfs m h hone hsum _)⟩

/-- Witness for amended C1 at the full-coverage two-station example. -/
theorem c1_amended_bucket_means_witness :
    (∀ s ∈ mk_station_forecasts c7Inputs,
      (s.1.filter (fun p => eff_model_name p == "m1" && eff_horizon p == 0)).length = 1) ∧
    ((mk_station_forecasts c7Inputs).map Prod.snd).sum ≠ 0 ∧
    (grid_bucket_point "G1" 0 0 200 199 (mk_station_forecasts c7Inputs) "m1" 0).tmean_c =
      some (spec_bucket_weighted_mean (bucket_items (mk_station_forecasts c7Inputs) "m1" 0)
        (fun p => p.tmean_c)) := by
  have hone : ∀ s ∈ mk_station_forecasts c7Inputs,
      (s.1.filter (fun p => eff_model_name p == "m1" && eff_horizon p == 0)).length = 1 := by
    intro s hs
    rw [msf_c7] at hs
    simp only [List.mem_cons, List.not_mem_nil, or_false] at hs
    rcases hs with rfl | rfl <;> rfl
  have hsum : ((mk_station_forecasts c7Inputs).map Prod.snd).sum ≠ 0 := by
    rw [msf_c7]
    norm_num
  exact ⟨hone, hsum,
    (c1_amended_bucket_means "G1" 0 0 200 199 (mk_station_forecasts c7Inputs) "m1" 0
      hone hsum).2.2.1⟩

/-- Counterexample to C7: a known distance of 0 km (station co-located with
the gridpoint) yields weight `1.0` in the code (the formula is only applied
when the distance is strictly positive), while the claimed formula
`1 / max(0.5, d)` would give `2`. -/
theorem c7_counterexample :
    station_weight (some 0) = 1 ∧ (1 : ℚ) / max (1/2) 0 = 2 ∧ (1 : ℚ) ≠ 2 := by
  refine ⟨?_, ?_, by norm_num⟩
  · show (if (0 : ℚ) < 0 then 1 / max (1/2) 0 else 1) = 1
    norm_num
  · rw [max_eq_left (by norm_num : (0 : ℚ) ≤ 1/2)]
    norm_num

/-- Amended C7: the aggregation weight is `1 / max(0.5, distance_km)`
whenever the distance is known AND strictly positive, and `1.0` when the
distance is unknown (or not positive); consequently, for two contributing
stations at 1 km and 4 km with bucket values `tmean_c = 10` and
`tmean_c = 20`, the weights are 1 and 1/4 and the merged `tmean_c` is
`(10 * 1 + 20 * (1/4)) / (1 + 1/4) = 12`. -/
theorem c7_amended_weights :
    (∀ d : ℚ, 0 < d → station_weight (some d) = 1 / max (1/2) d) ∧
    station_weight none = 1 ∧
    station_weight (some 1) = 1 ∧
    station_weight (some 4) = 1/4 ∧
    (grid_bucket_point "G1" 0 0 200 199 (mk_station_forecasts c7Inputs) "m1" 0).tmean_c =
      some 12 := by
  refine ⟨station_weight_known_pos, rfl, station_weight_some_one, station_weight_some_four, ?_⟩
  unfold grid_bucket_point
  dsimp only
  rw [msf_c7, bucket_c7]
  unfold bucket_field total_weight
  norm_num [cexA, cexB]

/-- Witness for amended C7 at distance 4 km. -/
theorem c7_amended_weights_witness :
    (0 : ℚ) < 4 ∧ station_weight (some 4) = 1 / max (1/2) 4 :=
  ⟨by norm_num, c7_amended_weights.1 4 (by norm_num)⟩


/-- Stored prediction row at horizon slot 0 for the existence-check examples. -/
def rowH0 : PredRow :=
  { source_type := "station"
    source_id := some "S1"
    lat := 0
    lon := 0
    as_of_date := 50
    horizon_hours := some 0 }

/-- Stored row with a non-integral-day horizon of 12 hours at a different
latitude (the upsert conflict key includes lat/lon, so such a row can
coexist with `rowH0`). -/
def rowH12 : PredRow :=
  { rowH0 with lat := 1, horizon_hours := some 12 }

/-- Stored row at horizon slot 24. -/
def rowH24 : PredRow :=
  { rowH0 with lat := 1, horizon_hours := some 24 }

/-- Table with rows at horizons 0 and 12 only: slot 24 is missing. -/
def c2Table : List PredRow := [rowH0, rowH12]

/-- Table with every integral-day slot for `days = 2` present. -/
def c2FullTable : List PredRow := [rowH0, rowH24]

/-- Counterexample to C2: for `days = 2`, a table holding rows at horizons
0 and 12 hours (slot 24 missing) makes the count-based check return true —
`COUNT(*) ≥ days` counts any rows in the window `[0, 24]`, so a missing
integral-day slot does not force a false result. -/
theorem c2_counterexample :
    forecast_exists c2Table "station" "S1" 50 2 = true ∧
      ¬ all_slots_present c2Table "station" "S1" 50 2 := by
  refine ⟨by decide, ?_⟩
  intro hall
  obtain ⟨r, hr, hst, hsid, hdate, hhor⟩ := hall 1 (by norm_num) (by norm_num)
  simp only [c2Table, List.mem_cons, List.not_mem_nil, or_false] at hr
  rcases hr with rfl | rfl
  · simp [rowH0] at hhor
  · simp [rowH12, rowH0] at hhor

/-- Amended C2: the existence check returns true iff at least `days` stored
rows for the key have `horizon_hours` in `[0, (days - 1) * 24]`; in
particular it returns true whenever every integral-day slot in `[0, days)`
is present, but a missing slot does not force false when other rows
(duplicate-slot rows at another lat/lon, or non-integral-day horizons) fill
the count. -/
theorem c2_amended_exists_check (table : List PredRow) (st sid : String) (d days : Int) :
    (forecast_exists table st sid d days = true ↔
      days ≤ ((matching_rows table st sid d days).length : Int)) ∧
    (all_slots_present table st sid d days → forecast_exists table st sid d days = true) := by
  have hiff : forecast_exists table st sid d days = true ↔
      days ≤ ((matching_rows table st sid d days).length : Int) := by
    unfold forecast_exists
    exact decide_eq_true_iff
  refine ⟨hiff, ?_⟩
  intro hall
  rw [hiff]
  by_cases hd : days ≤ 0
  · exact le_trans hd (Int.ofNat_nonneg _)
  push_neg at hd
  have hmem : ∀ k : Int, 0 ≤ k → k < days →
      some (24 * k) ∈ (matching_rows table st sid d days).map (fun r => r.horizon_hours) := by
    intro k h0 h1
    obtain ⟨r, hr, hst, hsid, hdate, hhor⟩ := hall k h0 h1
    refine List.mem_map.mpr ⟨r, ?_, by rw [hhor]⟩
    unfold matching_rows
    refine List.mem_filter.mpr ⟨hr, ?_⟩
    unfold row_in_window
    simp only [hst, hsid, hdate, hhor, beq_self_eq_true, Bool.true_and, Bool.and_eq_true,
      decide_eq_true_eq]
    omega
  have hsub : (Finset.Ico (0 : ℤ) days).image (fun k => some (24 * k)) ⊆
      ((matching_rows table st sid d days).map (fun r => r.horizon_hours)).toFinset := by
    intro x hx
    obtain ⟨k, hk, rfl⟩ := Finset.mem_image.mp hx
    rw [Finset.mem_Ico] at hk
    exact List.mem_toFinset.mpr (hmem k hk.1 hk.2)
  have hinj : Function.Injective (fun k : ℤ => some (24 * k)) := by
    intro a b hab
    simp only [Option.some.injEq] at hab
    omega
  have hcard := Finset.card_le_card hsub
  rw [Finset.card_image_of_injective _ hinj, Int.card_Ico] at hcard
  have hlen : ((matching_rows table st sid d days).map (fun r => r.horizon_hours)).toFinset.card ≤
      ((matching_rows table st sid d days).map (fun r => r.horizon_hours)).length :=
    List.toFinset_card_le _
  have hlen2 : ((matching_rows table st sid d days).map (fun r => r.horizon_hours)).length =
      (matching_rows table st sid d days).length := List.length_map _ _
  omega

/-- Witness for amended C2 at a complete two-slot table. -/
theorem c2_amended_exists_check_witness :
    all_slots_present c2FullTable "station" "S1" 50 2 ∧
      forecast_exists c2FullTable "station" "S1" 50 2 = true := by
  have hall : all_slots_present c2FullTable "station" "S1" 50 2 := by
    intro k h0 h1
    have hk : k = 0 ∨ k = 1 := by omega
    rcases hk with rfl | rfl
    · exact ⟨rowH0, by simp [c2FullTable], rfl, rfl, rfl, rfl⟩
    · exact ⟨rowH24, by simp [c2FullTable], rfl, rfl, rfl, rfl⟩
  exact ⟨hall, (c2_amended_exists_check c2FullTable "station" "S1" 50 2).2 hall⟩

end Weatherapp
